import Mathlib

/-!
Shallow embedding of the order-creation endpoint of `src/index.js`
(`app.post('/api/orders')`, lines 165-256) of the WONGIRENG backend.

Modelling choices:
* JS numbers are modelled exactly: ids and quantities as `Int`, prices as `Rat`
  (floating-point rounding is out of scope; the claims are about which value is
  used, not about rounding).
* A possibly-absent JS field is an `Option`; JS falsiness of a numeric field is
  "absent or zero", of a string field "absent or empty".
* The MySQL store is a `DBState` (products, orders, order_items, auto-increment
  counter).  A run of the handler yields the HTTP response, the final store
  state, and a trace of connection/store events, so that ordering, rollback and
  release claims can be stated.  Writes inside the transaction become visible in
  the final state only on commit; on rollback the state is unchanged.
* Store operations (`getConnection`, `beginTransaction`, each query, `commit`)
  can each fail; the fault model is a `List Bool` telling, for the k-th store
  operation of the run, whether it throws.  `rollback` and `release` are assumed
  not to throw.  The message of a thrown store error is driver-dependent and is
  modelled by the fixed placeholder `storeErrMsg`.
-/

namespace Wongireng

/-- A line item of the request body, as read by the handler
(`req.body.items[i]`): every field may be absent. -/
structure LineItemRequest where
  product_id : Option Int
  quantity : Option Int
  name : Option String
  price_at_order : Option Rat
  image_url : Option String
  deriving DecidableEq

/-- The request body of `POST /api/orders`: `{ items, customerIdentifier,
customerName }`, each possibly absent. -/
structure OrderRequest where
  items : Option (List LineItemRequest)
  customerIdentifier : Option String
  customerName : Option String
  deriving DecidableEq

/-- A row of the `products` table (the columns the handler reads). -/
structure ProductRow where
  id : Int
  price : Rat
  deriving DecidableEq

/-- A row of the `orders` table (the columns the handler writes). -/
structure OrderRow where
  id : Int
  customer_identifier : String
  customer_name : String
  total_price : Rat
  status : String
  deriving DecidableEq

/-- A row of the `order_items` table (the columns the handler writes). -/
structure OrderItemRow where
  order_id : Int
  product_id : Int
  quantity : Int
  price_at_order : Rat
  product_name : String
  image_url : Option String
  deriving DecidableEq

/-- The relational store: the three tables touched by the endpoint plus the
auto-increment counter of `orders.id` (the source of `insertId`). -/
structure DBState where
  products : List ProductRow
  orders : List OrderRow
  order_items : List OrderItemRow
  nextOrderId : Int
  deriving DecidableEq

/-- Connection/store events of one run, in chronological order.  An event is
recorded when the operation succeeds (`respond s` records sending the HTTP
response with status `s`). -/
inductive Event where
  | getConnection : Event
  | beginTransaction : Event
  | selectPrice : Int → Event
  | insertOrder : OrderRow → Event
  | insertOrderItem : OrderItemRow → Event
  | commit : Event
  | rollback : Event
  | release : Event
  | respond : Nat → Event
  deriving DecidableEq

/-- The HTTP response: status, `message`, and the extra fields of the 201 body
(`order_id, customerIdentifier, customerName, total_price, status`). -/
structure Response where
  status : Nat
  message : String
  order_id : Option Int := none
  customerIdentifier : Option String := none
  customerName : Option String := none
  total_price : Option Rat := none
  orderStatus : Option String := none
  deriving DecidableEq

/-- Everything one run of the handler produces. -/
structure RunResult where
  response : Response
  trace : List Event
  state : DBState
  deriving DecidableEq

/-- JS falsiness of a possibly-absent numeric (integer) field:
`!x` holds for `undefined`, `null` and `0`. -/
def numFalsy : Option Int → Bool
  | none => true
  | some n => n == 0

/-- JS falsiness of a possibly-absent numeric (decimal) field: a rational is
zero exactly when its numerator is zero. -/
def ratFalsy : Option Rat → Bool
  | none => true
  | some q => q.num == 0

/-- JS falsiness of a possibly-absent string field:
`!s` holds for `undefined`, `null` and `""`. -/
def strFalsy : Option String → Bool
  | none => true
  | some s => s == ""

/-- JS `x <= 0` on a possibly-absent number: comparison with `undefined`
is false (`NaN` comparison). -/
def jsLeZero : Option Int → Bool
  | none => false
  | some q => decide (q ≤ 0)

/-- JS `x || null` on the `image_url` field: a truthy string passes through,
`undefined`, `null` and `""` become `null`. -/
def jsOr : Option String → Option String
  | none => none
  | some s => if s == "" then none else some s

/-- The in-loop item check of line 190:
`!item.product_id || !item.quantity || item.quantity <= 0 || !item.name ||
!item.price_at_order`. -/
def itemInvalid (it : LineItemRequest) : Bool :=
  numFalsy it.product_id || numFalsy it.quantity || jsLeZero it.quantity ||
    strFalsy it.name || ratFalsy it.price_at_order

/-- JS `String.prototype.trim`: strip leading and trailing whitespace. -/
def jsTrim (s : String) : String :=
  ⟨((s.data.dropWhile Char.isWhitespace).reverse.dropWhile
      Char.isWhitespace).reverse⟩

/-- The check of lines 173 and 176 on `customerIdentifier` / `customerName`:
`!x || x.trim() === ''`. -/
def custFieldInvalid : Option String → Bool
  | none => true
  | some s => s == "" || jsTrim s == ""

/-- The check of line 169: `!items || items.length === 0` (an array is always
truthy, so only an absent field or an empty array triggers it). -/
def itemsMissingOrEmpty : Option (List LineItemRequest) → Bool
  | none => true
  | some l => l.isEmpty

/-- The request-shape checks performed before any store access
(lines 169-178). -/
def preValidationFailure (req : OrderRequest) : Bool :=
  itemsMissingOrEmpty req.items || custFieldInvalid req.customerIdentifier ||
    custFieldInvalid req.customerName

/-- `SELECT price FROM products WHERE id = ?` (line 196): the price of the
first matching row, if any. -/
def selectPrice (db : DBState) (pid : Int) : Option Rat :=
  (db.products.find? (fun p => p.id == pid)).map (fun p => p.price)

/-- Whether the k-th store operation of the run throws (the fault model). -/
def opFails (fails : List Bool) (k : Nat) : Bool :=
  fails.getD k false

/-- Message of the `Error` thrown by the in-loop item check (line 191). -/
def invalidItemMsg : String :=
  "Detail item pesanan tidak valid: product_id, quantity, name, atau price_at_order kurang."

/-- Message of the `Error` thrown when no product row matches (line 198). -/
def notFoundMsg (pid : Int) : String :=
  "Produk dengan ID " ++ toString pid ++ " tidak ditemukan."

/-- Placeholder for the driver-dependent message of a failed store
operation. -/
def storeErrMsg : String := "store error"

/-- Message interpolation of the catch block (line 250):
`Gagal membuat pesanan: ${error.message}`. -/
def catchMsg (msg : String) : String :=
  "Gagal membuat pesanan: " ++ msg

/-- A reconciled line item as pushed onto `orderItemsToInsert`
(lines 209-215): the authoritative price from the store, the client-supplied
display name, and the normalized image URL. -/
structure ReconciledItem where
  product_id : Int
  quantity : Int
  price_at_order : Rat
  product_name : String
  image_url : Option String
  deriving DecidableEq

/-- The `order_items` row written for one reconciled item (lines 229-232). -/
def rowOf (oid : Int) (r : ReconciledItem) : OrderItemRow :=
  { order_id := oid
    product_id := r.product_id
    quantity := r.quantity
    price_at_order := r.price_at_order
    product_name := r.product_name
    image_url := r.image_url }

/-- The per-item loop of lines 188-216: check the item, look up the
authoritative price, accumulate the total and the reconciled items.  `k` is
the index of the next store operation, `tr` the trace so far.  Returns the
extended trace and either the thrown error message or the state after the
loop. -/
def processItems (db : DBState) (fails : List Bool) :
    List LineItemRequest → Nat → Rat → List ReconciledItem → List Event →
    List Event × Except String (Nat × Rat × List ReconciledItem)
  | [], k, total, acc, tr => (tr, Except.ok (k, total, acc))
  | it :: rest, k, total, acc, tr =>
    if itemInvalid it then
      (tr, Except.error invalidItemMsg)
    else if opFails fails k then
      (tr, Except.error storeErrMsg)
    else
      match selectPrice db (it.product_id.getD 0) with
      | none =>
        (tr ++ [Event.selectPrice (it.product_id.getD 0)],
         Except.error (notFoundMsg (it.product_id.getD 0)))
      | some price =>
        processItems db fails rest (k + 1)
          (total + price * ((it.quantity.getD 0 : Int) : Rat))
          (acc ++ [{ product_id := it.product_id.getD 0
                     quantity := it.quantity.getD 0
                     price_at_order := price
                     product_name := it.name.getD ""
                     image_url := jsOr it.image_url }])
          (tr ++ [Event.selectPrice (it.product_id.getD 0)])

/-- The item-insert loop of lines 228-233: one `INSERT INTO order_items` per
reconciled item, in order, each carrying the generated order id. -/
def insertItemsLoop (fails : List Bool) (oid : Int) :
    List ReconciledItem → Nat → List OrderItemRow → List Event →
    List Event × Except String (Nat × List OrderItemRow)
  | [], k, acc, tr => (tr, Except.ok (k, acc))
  | r :: rest, k, acc, tr =>
    if opFails fails k then
      (tr, Except.error storeErrMsg)
    else
      insertItemsLoop fails oid rest (k + 1) (acc ++ [rowOf oid r])
        (tr ++ [Event.insertOrderItem (rowOf oid r)])

/-- Result of an early `return res.status(400).json(...)` (lines 169-178):
no store event happened, the store is untouched. -/
def badRequest (db : DBState) (msg : String) : RunResult :=
  { response := { status := 400, message := msg }
    trace := [Event.respond 400]
    state := db }

/-- Result of the catch block when a connection was acquired (lines 245-255):
rollback, then the 500 response, then release in `finally`; nothing of the
transaction is persisted. -/
def failResult (db : DBState) (tr : List Event) (msg : String) : RunResult :=
  { response := { status := 500, message := catchMsg msg }
    trace := tr ++ [Event.rollback, Event.respond 500, Event.release]
    state := db }

/-- The tail of the handler after reconciliation succeeded (lines 220-243):
insert the order header (obtaining `insertId`), insert the item rows, commit,
respond 201. -/
def afterRecon (db : DBState) (fails : List Bool) (ci cn : String)
    (tr : List Event) (k : Nat) (total : Rat) (recs : List ReconciledItem) :
    RunResult :=
  if opFails fails k then
    failResult db tr storeErrMsg
  else
    match insertItemsLoop fails db.nextOrderId recs (k + 1) []
        (tr ++ [Event.insertOrder
          { id := db.nextOrderId, customer_identifier := ci
            customer_name := cn, total_price := total
            status := "completed" }]) with
    | (tr2, Except.error msg) => failResult db tr2 msg
    | (tr2, Except.ok (k2, rows)) =>
      if opFails fails k2 then
        failResult db tr2 storeErrMsg
      else
        { response :=
            { status := 201, message := "Pesanan berhasil dibuat."
              order_id := some db.nextOrderId, customerIdentifier := some ci
              customerName := some cn, total_price := some total
              orderStatus := some "completed" }
          trace := tr2 ++ [Event.commit, Event.respond 201, Event.release]
          state :=
            { db with
                orders := db.orders ++
                  [{ id := db.nextOrderId, customer_identifier := ci
                     customer_name := cn, total_price := total
                     status := "completed" }]
                order_items := db.order_items ++ rows
                nextOrderId := db.nextOrderId + 1 } }

/-- The whole handler of `POST /api/orders` (lines 165-256), as a function of
the initial store state, the fault model and the request body. -/
def createOrder (db : DBState) (fails : List Bool) (req : OrderRequest) :
    RunResult :=
  if itemsMissingOrEmpty req.items then
    badRequest db "Pesanan harus memiliki item."
  else if custFieldInvalid req.customerIdentifier then
    badRequest db "Identitas konsumen (customerIdentifier) wajib diisi."
  else if custFieldInvalid req.customerName then
    badRequest db "Nama pembeli (customerName) wajib diisi."
  else if opFails fails 0 then
    -- getConnection threw: `connection` is still undefined, so the catch
    -- block skips rollback and the finally block skips release.
    { response := { status := 500, message := catchMsg storeErrMsg }
      trace := [Event.respond 500]
      state := db }
  else if opFails fails 1 then
    failResult db [Event.getConnection] storeErrMsg
  else
    match processItems db fails (req.items.getD []) 2 0 []
        [Event.getConnection, Event.beginTransaction] with
    | (tr, Except.error msg) => failResult db tr msg
    | (tr, Except.ok (k, total, recs)) =>
      afterRecon db fails (req.customerIdentifier.getD "")
        (req.customerName.getD "") tr k total recs

/-! ### Characterization helpers -/

/-- The select event issued for one line item. -/
def selEvent (it : LineItemRequest) : Event :=
  Event.selectPrice (it.product_id.getD 0)

/-- The reconciled record the loop pushes for one (valid, found) line item. -/
def reconSpec (db : DBState) (it : LineItemRequest) : ReconciledItem :=
  { product_id := it.product_id.getD 0
    quantity := it.quantity.getD 0
    price_at_order := (selectPrice db (it.product_id.getD 0)).getD 0
    product_name := it.name.getD ""
    image_url := jsOr it.image_url }

/-- The total the loop accumulates: authoritative price times quantity, summed
in submission order. -/
def totalOf (db : DBState) (items : List LineItemRequest) : Rat :=
  (items.map (fun it =>
    (selectPrice db (it.product_id.getD 0)).getD 0 *
      ((it.quantity.getD 0 : Int) : Rat))).sum

/-- Events that can occur strictly between `getConnection` and the
commit/rollback tail of a trace. -/
def midEvent : Event → Bool
  | Event.beginTransaction => true
  | Event.selectPrice _ => true
  | Event.insertOrder _ => true
  | Event.insertOrderItem _ => true
  | _ => false

/-- If the per-item loop returns normally, it visited every item: one select
per item in submission order, the reconciled records in submission order, the
total as specified, and every item passed the in-loop check and matched a
product. -/
theorem processItems_ok (db : DBState) (fails : List Bool) :
    ∀ (items : List LineItemRequest) (k : Nat) (total : Rat)
      (acc : List ReconciledItem) (tr tr' : List Event) (k' : Nat)
      (total' : Rat) (recs : List ReconciledItem),
      processItems db fails items k total acc tr =
        (tr', Except.ok (k', total', recs)) →
      tr' = tr ++ items.map selEvent ∧
      recs = acc ++ items.map (reconSpec db) ∧
      total' = total + totalOf db items ∧
      k' = k + items.length ∧
      ∀ it ∈ items, itemInvalid it = false ∧
        (selectPrice db (it.product_id.getD 0)).isSome := by
  intro items
  induction items with
  | nil =>
    intro k total acc tr tr' k' total' recs h
    simp only [processItems, Prod.mk.injEq, Except.ok.injEq] at h
    obtain ⟨h1, h2, h3, h4⟩ := h
    simp [totalOf, h1, h2, h3, h4]
  | cons it rest ih =>
    intro k total acc tr tr' k' total' recs h
    rw [processItems] at h
    by_cases hinv : itemInvalid it
    · simp [hinv] at h
    · simp only [hinv, Bool.false_eq_true, if_false] at h
      by_cases hop : opFails fails k
      · simp [hop] at h
      · simp only [hop, Bool.false_eq_true, if_false] at h
        cases hsel : selectPrice db (it.product_id.getD 0) with
        | none => simp [hsel] at h
        | some price =>
          rw [hsel] at h
          obtain ⟨ih1, ih2, ih3, ih4, ih5⟩ := ih _ _ _ _ _ _ _ _ h
          refine ⟨?_, ?_, ?_, ?_, ?_⟩
          · simp [ih1, selEvent]
          · simp only [ih2, List.map_cons, List.append_assoc,
              List.singleton_append, List.cons_append, List.nil_append]
            have : reconSpec db it =
                { product_id := it.product_id.getD 0
                  quantity := it.quantity.getD 0
                  price_at_order := price
                  product_name := it.name.getD ""
                  image_url := jsOr it.image_url } := by
              simp [reconSpec, hsel]
            rw [this]
          · simp only [ih3, totalOf, List.map_cons, List.sum_cons, hsel,
              Option.getD_some]
            ring
          · simp [ih4]
            omega
          · intro x hx
            rcases List.mem_cons.mp hx with rfl | hx
            · exact ⟨by simpa using hinv, by simp [hsel]⟩
            · exact ih5 x hx

/-- If the item-insert loop returns normally, it inserted one row per
reconciled item, in order, each row built from that item and the given order
id. -/
theorem insertItemsLoop_ok (fails : List Bool) (oid : Int) :
    ∀ (recs : List ReconciledItem) (k : Nat) (acc : List OrderItemRow)
      (tr tr' : List Event) (k2 : Nat) (rows : List OrderItemRow),
      insertItemsLoop fails oid recs k acc tr = (tr', Except.ok (k2, rows)) →
      tr' = tr ++ recs.map (fun r => Event.insertOrderItem (rowOf oid r)) ∧
      rows = acc ++ recs.map (rowOf oid) ∧
      k2 = k + recs.length := by
  intro recs
  induction recs with
  | nil =>
    intro k acc tr tr' k2 rows h
    simp only [insertItemsLoop, Prod.mk.injEq, Except.ok.injEq] at h
    obtain ⟨h1, h2, h3⟩ := h
    simp [h1, h2, h3]
  | cons r rest ih =>
    intro k acc tr tr' k2 rows h
    rw [insertItemsLoop] at h
    by_cases hop : opFails fails k
    · simp [hop] at h
    · simp only [hop, Bool.false_eq_true, if_false] at h
      obtain ⟨ih1, ih2, ih3⟩ := ih _ _ _ _ _ _ h
      refine ⟨by simp [ih1], by simp [ih2], by simp [ih3]; omega⟩

/-- Whatever the per-item loop does, it only appends select events to the
trace. -/
theorem processItems_trace (db : DBState) (fails : List Bool) :
    ∀ (items : List LineItemRequest) (k : Nat) (total : Rat)
      (acc : List ReconciledItem) (tr : List Event),
      ∃ ext, (processItems db fails items k total acc tr).1 = tr ++ ext ∧
        ∀ e ∈ ext, midEvent e = true := by
  intro items
  induction items with
  | nil =>
    intro k total acc tr
    exact ⟨[], by simp [processItems], by simp⟩
  | cons it rest ih =>
    intro k total acc tr
    rw [processItems]
    by_cases hinv : itemInvalid it = true
    · exact ⟨[], by simp [hinv], by simp⟩
    · simp only [hinv, Bool.false_eq_true, if_false]
      by_cases hop : opFails fails k = true
      · exact ⟨[], by simp [hop], by simp⟩
      · simp only [hop, Bool.false_eq_true, if_false]
        cases hsel : selectPrice db (it.product_id.getD 0) with
        | none =>
          exact ⟨[Event.selectPrice (it.product_id.getD 0)], by simp [hsel],
            by simp [midEvent]⟩
        | some price =>
          obtain ⟨ext', h1', h2'⟩ := ih (k + 1)
            (total + price * ((it.quantity.getD 0 : Int) : Rat))
            (acc ++ [{ product_id := it.product_id.getD 0
                       quantity := it.quantity.getD 0
                       price_at_order := price
                       product_name := it.name.getD ""
                       image_url := jsOr it.image_url }])
            (tr ++ [Event.selectPrice (it.product_id.getD 0)])
          refine ⟨Event.selectPrice (it.product_id.getD 0) :: ext', ?_, ?_⟩
          · simpa using h1'
          · intro e he
            rcases List.mem_cons.mp he with rfl | he
            · simp [midEvent]
            · exact h2' e he

/-- Whatever the item-insert loop does, it only appends item-insert events to
the trace. -/
theorem insertItemsLoop_trace (fails : List Bool) (oid : Int) :
    ∀ (recs : List ReconciledItem) (k : Nat) (acc : List OrderItemRow)
      (tr : List Event),
      ∃ ext, (insertItemsLoop fails oid recs k acc tr).1 = tr ++ ext ∧
        ∀ e ∈ ext, midEvent e = true := by
  intro recs
  induction recs with
  | nil =>
    intro k acc tr
    exact ⟨[], by simp [insertItemsLoop], by simp⟩
  | cons r rest ih =>
    intro k acc tr
    rw [insertItemsLoop]
    by_cases hop : opFails fails k = true
    · exact ⟨[], by simp [hop], by simp⟩
    · simp only [hop, Bool.false_eq_true, if_false]
      obtain ⟨ext, h1, h2⟩ := ih (k + 1) (acc ++ [rowOf oid r])
        (tr ++ [Event.insertOrderItem (rowOf oid r)])
      refine ⟨Event.insertOrderItem (rowOf oid r) :: ext, by simpa using h1, ?_⟩
      intro e he
      rcases List.mem_cons.mp he with rfl | he
      · simp [midEvent]
      · exact h2 e he

/-- The tail after reconciliation either rolls back (store untouched) or
commits with a 201; either way the trace grows by mid events and the matching
terminal sequence. -/
theorem afterRecon_shape (db : DBState) (fails : List Bool) (ci cn : String)
    (tr : List Event) (k : Nat) (total : Rat) (recs : List ReconciledItem) :
    (∃ ext, (afterRecon db fails ci cn tr k total recs).trace =
        tr ++ ext ++ [Event.rollback, Event.respond 500, Event.release] ∧
      (∀ e ∈ ext, midEvent e = true) ∧
      (afterRecon db fails ci cn tr k total recs).state = db ∧
      (afterRecon db fails ci cn tr k total recs).response.status = 500) ∨
    (∃ ext, (afterRecon db fails ci cn tr k total recs).trace =
        tr ++ ext ++ [Event.commit, Event.respond 201, Event.release] ∧
      (∀ e ∈ ext, midEvent e = true) ∧
      (afterRecon db fails ci cn tr k total recs).response.status = 201) := by
  rw [afterRecon]
  by_cases hop : opFails fails k = true
  · simp only [hop, if_true]
    exact Or.inl ⟨[], by simp [failResult], by simp, by simp [failResult],
      by simp [failResult]⟩
  · simp only [hop, Bool.false_eq_true, if_false]
    obtain ⟨ext, h1, h2⟩ := insertItemsLoop_trace fails db.nextOrderId recs
      (k + 1) []
      (tr ++ [Event.insertOrder
        { id := db.nextOrderId, customer_identifier := ci
          customer_name := cn, total_price := total
          status := "completed" }])
    rcases hins : insertItemsLoop fails db.nextOrderId recs (k + 1) []
        (tr ++ [Event.insertOrder
          { id := db.nextOrderId, customer_identifier := ci
            customer_name := cn, total_price := total
            status := "completed" }]) with ⟨tr2, res⟩
    rw [hins] at h1
    have hmid : ∀ e ∈ Event.insertOrder
        { id := db.nextOrderId, customer_identifier := ci
          customer_name := cn, total_price := total
          status := "completed" } :: ext, midEvent e = true := by
      intro e he
      rcases List.mem_cons.mp he with rfl | he
      · simp [midEvent]
      · exact h2 e he
    have htr2 : tr2 = tr ++ (Event.insertOrder
        { id := db.nextOrderId, customer_identifier := ci
          customer_name := cn, total_price := total
          status := "completed" } :: ext) := by
      simpa using h1
    cases res with
    | error msg =>
      exact Or.inl ⟨_, by simp [failResult, htr2], hmid, by simp [failResult],
        by simp [failResult]⟩
    | ok v =>
      rcases v with ⟨k2, rows⟩
      by_cases hop2 : opFails fails k2 = true
      · simp only [hop2, if_true]
        exact Or.inl ⟨_, by simp [failResult, htr2], hmid,
          by simp [failResult], by simp [failResult]⟩
      · simp only [hop2, Bool.false_eq_true, if_false]
        exact Or.inr ⟨_, by simp [htr2], hmid, by simp⟩

/-- Every run of the handler has one of four shapes: an early 400 with no
store event, a 500 with no connection (getConnection threw), a rolled-back
500 with the store untouched, or a committed 201. -/
theorem createOrder_shape (db : DBState) (fails : List Bool)
    (req : OrderRequest) :
    ((createOrder db fails req).trace = [Event.respond 400] ∧
      (createOrder db fails req).state = db ∧
      (createOrder db fails req).response.status = 400) ∨
    ((createOrder db fails req).trace = [Event.respond 500] ∧
      (createOrder db fails req).state = db ∧
      (createOrder db fails req).response.status = 500) ∨
    (∃ mid, (createOrder db fails req).trace =
        Event.getConnection :: mid ++
          [Event.rollback, Event.respond 500, Event.release] ∧
      (∀ e ∈ mid, midEvent e = true) ∧
      (createOrder db fails req).state = db ∧
      (createOrder db fails req).response.status = 500) ∨
    (∃ mid, (createOrder db fails req).trace =
        Event.getConnection :: mid ++
          [Event.commit, Event.respond 201, Event.release] ∧
      (∀ e ∈ mid, midEvent e = true) ∧
      (createOrder db fails req).response.status = 201) := by
  rw [createOrder]
  by_cases h1 : itemsMissingOrEmpty req.items = true
  · simp only [h1, if_true]
    exact Or.inl ⟨by simp [badRequest], by simp [badRequest], by simp [badRequest]⟩
  · simp only [h1, Bool.false_eq_true, if_false]
    by_cases h2 : custFieldInvalid req.customerIdentifier = true
    · simp only [h2, if_true]
      exact Or.inl ⟨by simp [badRequest], by simp [badRequest], by simp [badRequest]⟩
    · simp only [h2, Bool.false_eq_true, if_false]
      by_cases h3 : custFieldInvalid req.customerName = true
      · simp only [h3, if_true]
        exact Or.inl ⟨by simp [badRequest], by simp [badRequest], by simp [badRequest]⟩
      · simp only [h3, Bool.false_eq_true, if_false]
        by_cases h4 : opFails fails 0 = true
        · simp only [h4, if_true]
          exact Or.inr (Or.inl ⟨by simp, by simp, by simp⟩)
        · simp only [h4, Bool.false_eq_true, if_false]
          by_cases h5 : opFails fails 1 = true
          · simp only [h5, if_true]
            exact Or.inr (Or.inr (Or.inl ⟨[], by simp [failResult],
              by simp, by simp [failResult], by simp [failResult]⟩))
          · simp only [h5, Bool.false_eq_true, if_false]
            obtain ⟨ext, hp1, hp2⟩ := processItems_trace db fails
              (req.items.getD []) 2 0 []
              [Event.getConnection, Event.beginTransaction]
            rcases hproc : processItems db fails (req.items.getD []) 2 0 []
                [Event.getConnection, Event.beginTransaction] with ⟨tr, res⟩
            rw [hproc] at hp1
            have hmid : ∀ e ∈ Event.beginTransaction :: ext,
                midEvent e = true := by
              intro e he
              rcases List.mem_cons.mp he with rfl | he
              · simp [midEvent]
              · exact hp2 e he
            have htr : tr = Event.getConnection ::
                (Event.beginTransaction :: ext) := by
              simpa using hp1
            cases res with
            | error msg =>
              exact Or.inr (Or.inr (Or.inl ⟨_, by simp [failResult, htr],
                hmid, by simp [failResult], by simp [failResult]⟩))
            | ok v =>
              rcases v with ⟨k, total, recs⟩
              rcases afterRecon_shape db fails (req.customerIdentifier.getD "")
                  (req.customerName.getD "") tr k total recs with
                ⟨ext2, ha1, ha2, ha3, ha4⟩ | ⟨ext2, ha1, ha2, ha4⟩
              · refine Or.inr (Or.inr (Or.inl
                  ⟨Event.beginTransaction :: ext ++ ext2, ?_, ?_, ha3, ha4⟩))
                · rw [ha1, htr]
                  simp
                · intro e he
                  rcases List.mem_cons.mp he with rfl | he
                  · simp [midEvent]
                  · rcases List.mem_append.mp he with he | he
                    · exact hp2 e he
                    · exact ha2 e he
              · refine Or.inr (Or.inr (Or.inr
                  ⟨Event.beginTransaction :: ext ++ ext2, ?_, ?_, ha4⟩))
                · rw [ha1, htr]
                  simp
                · intro e he
                  rcases List.mem_cons.mp he with rfl | he
                  · simp [midEvent]
                  · rcases List.mem_append.mp he with he | he
                    · exact hp2 e he
                    · exact ha2 e he

/-- The `orders` row the handler writes for a request whose reconciliation
succeeded. -/
def headerOf (db : DBState) (req : OrderRequest)
    (items : List LineItemRequest) : OrderRow :=
  { id := db.nextOrderId
    customer_identifier := req.customerIdentifier.getD ""
    customer_name := req.customerName.getD ""
    total_price := totalOf db items
    status := "completed" }

/-- If the tail after reconciliation responds 201, it inserted the header, one
row per reconciled item, committed, and made exactly those rows visible. -/
theorem afterRecon_success (db : DBState) (fails : List Bool) (ci cn : String)
    (tr : List Event) (k : Nat) (total : Rat) (recs : List ReconciledItem)
    (h : (afterRecon db fails ci cn tr k total recs).response.status = 201) :
    afterRecon db fails ci cn tr k total recs =
      { response :=
          { status := 201, message := "Pesanan berhasil dibuat."
            order_id := some db.nextOrderId, customerIdentifier := some ci
            customerName := some cn, total_price := some total
            orderStatus := some "completed" }
        trace := tr ++ [Event.insertOrder
            { id := db.nextOrderId, customer_identifier := ci
              customer_name := cn, total_price := total
              status := "completed" }] ++
          recs.map (fun r => Event.insertOrderItem (rowOf db.nextOrderId r)) ++
          [Event.commit, Event.respond 201, Event.release]
        state :=
          { db with
              orders := db.orders ++
                [{ id := db.nextOrderId, customer_identifier := ci
                   customer_name := cn, total_price := total
                   status := "completed" }]
              order_items := db.order_items ++ recs.map (rowOf db.nextOrderId)
              nextOrderId := db.nextOrderId + 1 } } := by
  rw [afterRecon] at h ⊢
  by_cases hop : opFails fails k = true
  · simp [hop, failResult] at h
  · simp only [hop, Bool.false_eq_true, if_false] at h ⊢
    rcases hins : insertItemsLoop fails db.nextOrderId recs (k + 1) []
        (tr ++ [Event.insertOrder
          { id := db.nextOrderId, customer_identifier := ci
            customer_name := cn, total_price := total
            status := "completed" }]) with ⟨tr2, res⟩
    rw [hins] at h
    cases res with
    | error msg => simp [failResult] at h
    | ok v =>
      rcases v with ⟨k2, rows⟩
      dsimp only at h ⊢
      by_cases hop2 : opFails fails k2 = true
      · simp [hop2, failResult] at h
      · simp only [hop2, Bool.false_eq_true, if_false]
        obtain ⟨h1, h2, h3⟩ := insertItemsLoop_ok fails db.nextOrderId
          recs _ _ _ _ _ _ hins
        rw [h1, h2]
        simp

/-- If the whole handler responds 201, the request carried a list of items,
every item passed the in-loop check and matched a product, and the run is
exactly the straight-line success run: connection, begin, one select per item,
header insert, one item insert per item, commit, respond, release, with
exactly the reconciled rows made visible. -/
theorem createOrder_success_char (db : DBState) (fails : List Bool)
    (req : OrderRequest)
    (h : (createOrder db fails req).response.status = 201) :
    ∃ items, req.items = some items ∧
      (∀ it ∈ items, itemInvalid it = false ∧
        (selectPrice db (it.product_id.getD 0)).isSome) ∧
      createOrder db fails req =
        { response :=
            { status := 201, message := "Pesanan berhasil dibuat."
              order_id := some db.nextOrderId
              customerIdentifier := some (req.customerIdentifier.getD "")
              customerName := some (req.customerName.getD "")
              total_price := some (totalOf db items)
              orderStatus := some "completed" }
          trace := [Event.getConnection, Event.beginTransaction] ++
            items.map selEvent ++
            [Event.insertOrder (headerOf db req items)] ++
            (items.map (reconSpec db)).map
              (fun r => Event.insertOrderItem (rowOf db.nextOrderId r)) ++
            [Event.commit, Event.respond 201, Event.release]
          state :=
            { db with
                orders := db.orders ++ [headerOf db req items]
                order_items := db.order_items ++
                  (items.map (reconSpec db)).map (rowOf db.nextOrderId)
                nextOrderId := db.nextOrderId + 1 } } := by
  rw [createOrder] at h ⊢
  by_cases h1 : itemsMissingOrEmpty req.items = true
  · simp [h1, badRequest] at h
  · simp only [h1, Bool.false_eq_true, if_false] at h ⊢
    by_cases h2 : custFieldInvalid req.customerIdentifier = true
    · simp [h2, badRequest] at h
    · simp only [h2, Bool.false_eq_true, if_false] at h ⊢
      by_cases h3 : custFieldInvalid req.customerName = true
      · simp [h3, badRequest] at h
      · simp only [h3, Bool.false_eq_true, if_false] at h ⊢
        by_cases h4 : opFails fails 0 = true
        · simp [h4] at h
        · simp only [h4, Bool.false_eq_true, if_false] at h ⊢
          by_cases h5 : opFails fails 1 = true
          · simp [h5, failResult] at h
          · simp only [h5, Bool.false_eq_true, if_false] at h ⊢
            rcases hproc : processItems db fails (req.items.getD []) 2 0 []
                [Event.getConnection, Event.beginTransaction] with ⟨tr, res⟩
            rw [hproc] at h
            cases res with
            | error msg => simp [failResult] at h
            | ok v =>
              rcases v with ⟨k, total, recs⟩
              dsimp only at h ⊢
              obtain ⟨p1, p2, p3, p4, p5⟩ := processItems_ok db fails
                (req.items.getD []) _ _ _ _ _ _ _ _ hproc
              have hitems : req.items = some (req.items.getD []) := by
                cases hri : req.items with
                | none => rw [hri] at h1; simp [itemsMissingOrEmpty] at h1
                | some l => simp
              refine ⟨req.items.getD [], hitems, p5, ?_⟩
              have hsucc := afterRecon_success db fails
                (req.customerIdentifier.getD "") (req.customerName.getD "")
                tr k total recs h
              rw [hsucc, p1, p2, p3]
              simp only [List.nil_append, zero_add]
              rfl

/-- If the first in-loop-invalid item is preceded only by valid items that
match products, and no store operation fails, the loop stops at that item with
the invalid-item error, having issued exactly one select per preceding
item. -/
theorem processItems_invalid_first (db : DBState) :
    ∀ (l1 : List LineItemRequest) (bad : LineItemRequest)
      (l2 : List LineItemRequest) (k : Nat) (total : Rat)
      (acc : List ReconciledItem) (tr : List Event),
      (∀ it ∈ l1, itemInvalid it = false ∧
        (selectPrice db (it.product_id.getD 0)).isSome) →
      itemInvalid bad = true →
      processItems db [] (l1 ++ bad :: l2) k total acc tr =
        ((processItems db [] (l1 ++ bad :: l2) k total acc tr).1,
          Except.error invalidItemMsg) ∧
      (processItems db [] (l1 ++ bad :: l2) k total acc tr).1 =
        tr ++ l1.map selEvent := by
  intro l1
  induction l1 with
  | nil =>
    intro bad l2 k total acc tr hok hbad
    simp [processItems, hbad]
  | cons it rest ih =>
    intro bad l2 k total acc tr hok hbad
    obtain ⟨hv, hs⟩ := hok it (by simp)
    rcases Option.isSome_iff_exists.mp hs with ⟨price, hsel⟩
    have hop : opFails [] k = false := by simp [opFails]
    rw [List.cons_append, processItems, hv, hop]
    simp only [Bool.false_eq_true, if_false, hsel]
    obtain ⟨ih1, ih2⟩ := ih bad l2 (k + 1)
      (total + price * ((it.quantity.getD 0 : Int) : Rat))
      (acc ++ [{ product_id := it.product_id.getD 0
                 quantity := it.quantity.getD 0
                 price_at_order := price
                 product_name := it.name.getD ""
                 image_url := jsOr it.image_url }])
      (tr ++ [Event.selectPrice (it.product_id.getD 0)])
      (fun x hx => hok x (List.mem_cons_of_mem it hx)) hbad
    refine ⟨ih1, ?_⟩
    rw [ih2]
    simp [selEvent]

/-- The catch-block message is never empty: it starts with the fixed prefix
of line 250. -/
theorem catchMsg_ne_empty (msg : String) : catchMsg msg ≠ "" := by
  intro h
  have h2 := congrArg String.length h
  rw [catchMsg, String.length_append] at h2
  have h3 : ("Gagal membuat pesanan: ").length = 23 := by decide
  rw [h3, String.length_empty] at h2
  omega

/-- The tail after reconciliation responds 201 or 500, always with a
non-empty message. -/
theorem afterRecon_message (db : DBState) (fails : List Bool) (ci cn : String)
    (tr : List Event) (k : Nat) (total : Rat) (recs : List ReconciledItem) :
    (afterRecon db fails ci cn tr k total recs).response.message ≠ "" ∧
    ((afterRecon db fails ci cn tr k total recs).response.status = 201 ∨
      (afterRecon db fails ci cn tr k total recs).response.status = 500) := by
  rw [afterRecon]
  by_cases hop : opFails fails k = true
  · simp [hop, failResult, catchMsg_ne_empty]
  · simp only [hop, Bool.false_eq_true, if_false]
    rcases hins : insertItemsLoop fails db.nextOrderId recs (k + 1) []
        (tr ++ [Event.insertOrder
          { id := db.nextOrderId, customer_identifier := ci
            customer_name := cn, total_price := total
            status := "completed" }]) with ⟨tr2, res⟩
    cases res with
    | error msg => simpa [failResult] using catchMsg_ne_empty msg
    | ok v =>
      rcases v with ⟨k2, rows⟩
      dsimp only
      by_cases hop2 : opFails fails k2 = true
      · simp [hop2, failResult, catchMsg_ne_empty]
      · simp only [hop2, Bool.false_eq_true, if_false]
        exact ⟨by decide, by simp⟩

/-! ### Example inputs used by witnesses and counterexamples -/

/-- Example store: product 1 priced 10, no orders yet, next order id 1. -/
def exDB : DBState :=
  { products := [{ id := 1, price := mkRat 10 1 }]
    orders := []
    order_items := []
    nextOrderId := 1 }

/-- A valid line item for product 1; the client claims a price of 1. -/
def exItem : LineItemRequest :=
  { product_id := some 1, quantity := some 3, name := some "Widget"
    price_at_order := some (mkRat 1 1), image_url := some "img.png" }

/-- A fully valid request with one line item. -/
def exReq : OrderRequest :=
  { items := some [exItem]
    customerIdentifier := some "c1"
    customerName := some "Alice" }

/-- A line item referencing the nonexistent product 999. -/
def exItemMissing : LineItemRequest :=
  { product_id := some 999, quantity := some 1, name := some "Ghost"
    price_at_order := some (mkRat 5 1), image_url := none }

/-- A well-shaped request whose only item references a missing product. -/
def exReqMissing : OrderRequest :=
  { items := some [exItemMissing]
    customerIdentifier := some "c1"
    customerName := some "Bob" }

/-- An item failing the in-loop check: present but zero quantity. -/
def exItemZeroQty : LineItemRequest :=
  { product_id := some 1, quantity := some 0, name := some "Widget"
    price_at_order := some (mkRat 10 1), image_url := none }

/-- A request whose second item fails the in-loop check, after a valid first
item. -/
def exReqBadItem : OrderRequest :=
  { items := some [exItem, exItemZeroQty]
    customerIdentifier := some "c1"
    customerName := some "Alice" }

/-- A request with an empty items array. -/
def exReqEmptyItems : OrderRequest :=
  { items := some []
    customerIdentifier := some "c1"
    customerName := some "Alice" }

/-! ### The claims -/

/-- C2: whenever a transaction was opened (a `beginTransaction` event
occurred) and the flow did not reach commit (no `commit` event), the run rolls
back, then sends the error response, then releases; the final store equals the
initial store, so no order row and no order-item row of the request is
persisted. -/
theorem C2_rollback_on_failure (db : DBState) (fails : List Bool)
    (req : OrderRequest)
    (hbt : Event.beginTransaction ∈ (createOrder db fails req).trace)
    (hnc : Event.commit ∉ (createOrder db fails req).trace) :
    (∃ pre, (createOrder db fails req).trace =
      pre ++ [Event.rollback, Event.respond 500, Event.release]) ∧
    (createOrder db fails req).state = db := by
  rcases createOrder_shape db fails req with ⟨ht, hs, _⟩ | ⟨ht, hs, _⟩ |
      ⟨mid, ht, hmid, hs, _⟩ | ⟨mid, ht, hmid, _⟩
  · rw [ht] at hbt
    simp at hbt
  · rw [ht] at hbt
    simp at hbt
  · exact ⟨⟨Event.getConnection :: mid, by rw [ht]⟩, hs⟩
  · exact absurd (by rw [ht]; simp : Event.commit ∈ (createOrder db fails req).trace) hnc

/-- C2 witness: a request referencing a missing product opens a transaction,
never commits, and the theorem applies. -/
theorem C2_rollback_on_failure_witness :
    (∃ pre, (createOrder exDB [] exReqMissing).trace =
      pre ++ [Event.rollback, Event.respond 500, Event.release]) ∧
    (createOrder exDB [] exReqMissing).state = exDB :=
  C2_rollback_on_failure exDB [] exReqMissing (by decide) (by decide)

/-- C6: a request with missing/empty items, or an absent/empty/whitespace
customerIdentifier or customerName, gets a 400 response with the store
untouched and with no connection or store event at all. -/
theorem C6_pre_validation_400 (db : DBState) (fails : List Bool)
    (req : OrderRequest) (h : preValidationFailure req = true) :
    (createOrder db fails req).response.status = 400 ∧
    (createOrder db fails req).state = db ∧
    (createOrder db fails req).trace = [Event.respond 400] := by
  rw [createOrder]
  by_cases h1 : itemsMissingOrEmpty req.items = true
  · simp [h1, badRequest]
  · simp only [h1, Bool.false_eq_true, if_false]
    by_cases h2 : custFieldInvalid req.customerIdentifier = true
    · simp [h2, badRequest]
    · simp only [h2, Bool.false_eq_true, if_false]
      by_cases h3 : custFieldInvalid req.customerName = true
      · simp [h3, badRequest]
      · simp [preValidationFailure, h1, h2, h3] at h

/-- C6 witness: the empty-items request is rejected with 400 and no store
event. -/
theorem C6_pre_validation_400_witness :
    (createOrder exDB [] exReqEmptyItems).response.status = 400 ∧
    (createOrder exDB [] exReqEmptyItems).state = exDB ∧
    (createOrder exDB [] exReqEmptyItems).trace = [Event.respond 400] :=
  C6_pre_validation_400 exDB [] exReqEmptyItems (by decide)

/-- C7: on every run in which a connection was acquired, the trace ends with
exactly one `release`, and a `commit` or `rollback` precedes it. -/
theorem C7_connection_released_once (db : DBState) (fails : List Bool)
    (req : OrderRequest)
    (h : Event.getConnection ∈ (createOrder db fails req).trace) :
    ∃ pre, (createOrder db fails req).trace = pre ++ [Event.release] ∧
      Event.release ∉ pre ∧
      (Event.commit ∈ pre ∨ Event.rollback ∈ pre) := by
  rcases createOrder_shape db fails req with ⟨ht, _, _⟩ | ⟨ht, _, _⟩ |
      ⟨mid, ht, hmid, _, _⟩ | ⟨mid, ht, hmid, _⟩
  · rw [ht] at h
    simp at h
  · rw [ht] at h
    simp at h
  · refine ⟨Event.getConnection :: (mid ++ [Event.rollback, Event.respond 500]),
      by rw [ht]; simp, ?_, Or.inr (by simp)⟩
    intro hmem
    rcases List.mem_cons.mp hmem with h' | h'
    · exact Event.noConfusion h'
    · rcases List.mem_append.mp h' with h' | h'
      · have := hmid _ h'
        simp [midEvent] at this
      · rcases List.mem_cons.mp h' with h' | h'
        · exact Event.noConfusion h'
        · rcases List.mem_singleton.mp h' with h'
          exact Event.noConfusion h'
  · refine ⟨Event.getConnection :: (mid ++ [Event.commit, Event.respond 201]),
      by rw [ht]; simp, ?_, Or.inl (by simp)⟩
    intro hmem
    rcases List.mem_cons.mp hmem with h' | h'
    · exact Event.noConfusion h'
    · rcases List.mem_append.mp h' with h' | h'
      · have := hmid _ h'
        simp [midEvent] at this
      · rcases List.mem_cons.mp h' with h' | h'
        · exact Event.noConfusion h'
        · rcases List.mem_singleton.mp h' with h'
          exact Event.noConfusion h'

/-- C7 witness: the successful example run releases its connection exactly
once, after the commit. -/
theorem C7_connection_released_once_witness :
    ∃ pre, (createOrder exDB [] exReq).trace = pre ++ [Event.release] ∧
      Event.release ∉ pre ∧
      (Event.commit ∈ pre ∨ Event.rollback ∈ pre) :=
  C7_connection_released_once exDB [] exReq (by decide)

/-- C9: a line item whose `product_id`, `quantity` or `price_at_order` is
present but zero fails the in-loop falsiness check exactly like a missing
field, so the request can never commit and nothing is persisted. -/
theorem C9_zero_fields_rejected (db : DBState) (fails : List Bool)
    (req : OrderRequest) (items : List LineItemRequest)
    (it : LineItemRequest) (hitems : req.items = some items)
    (hmem : it ∈ items)
    (hzero : it.product_id = some 0 ∨ it.quantity = some 0 ∨
      it.price_at_order = some 0) :
    itemInvalid it = true ∧
    (createOrder db fails req).response.status ≠ 201 ∧
    (createOrder db fails req).state = db := by
  have hinv : itemInvalid it = true := by
    rcases hzero with hz | hz | hz <;>
      simp [itemInvalid, numFalsy, ratFalsy, hz]
  have hne : (createOrder db fails req).response.status ≠ 201 := by
    intro h201
    obtain ⟨items', hitems', hvalid, -⟩ :=
      createOrder_success_char db fails req h201
    rw [hitems] at hitems'
    injection hitems' with hii
    subst hii
    have := (hvalid it hmem).1
    rw [hinv] at this
    cases this
  refine ⟨hinv, hne, ?_⟩
  rcases createOrder_shape db fails req with ⟨_, hs, _⟩ | ⟨_, hs, _⟩ |
      ⟨_, _, _, hs, _⟩ | ⟨_, _, _, hst⟩
  · exact hs
  · exact hs
  · exact hs
  · exact absurd hst hne

/-- C9 witness: a present-but-zero quantity is rejected and persists
nothing. -/
theorem C9_zero_fields_rejected_witness :
    itemInvalid exItemZeroQty = true ∧
    (createOrder exDB [] exReqBadItem).response.status ≠ 201 ∧
    (createOrder exDB [] exReqBadItem).state = exDB :=
  C9_zero_fields_rejected exDB [] exReqBadItem [exItem, exItemZeroQty]
    exItemZeroQty (by decide) (by decide) (Or.inr (Or.inl (by decide)))

/-- C1: whenever the handler persists an order (responds 201), every
persisted order-item row carries the price the store returns for its product
— never the client-supplied `price_at_order` — and the persisted order's
`total_price` is the sum of `price_at_order * quantity` over exactly those
rows. -/
theorem C1_price_integrity (db : DBState) (fails : List Bool)
    (req : OrderRequest)
    (h : (createOrder db fails req).response.status = 201) :
    ∃ o, (createOrder db fails req).state.orders = db.orders ++ [o] ∧
      (∀ r ∈ (createOrder db fails req).state.order_items.drop
          db.order_items.length,
        selectPrice db r.product_id = some r.price_at_order) ∧
      o.total_price =
        (((createOrder db fails req).state.order_items.drop
            db.order_items.length).map
          (fun r => r.price_at_order * (r.quantity : Rat))).sum := by
  obtain ⟨items, hitems, hvalid, heq⟩ := createOrder_success_char db fails req h
  refine ⟨headerOf db req items, ?_, ?_, ?_⟩
  · rw [heq]
  · rw [heq]
    dsimp only
    rw [List.drop_left]
    intro r hr
    simp only [List.map_map, List.mem_map, Function.comp] at hr
    obtain ⟨it, hit, rfl⟩ := hr
    obtain ⟨p, hp⟩ := Option.isSome_iff_exists.mp (hvalid it hit).2
    simp [rowOf, reconSpec, hp]
  · rw [heq]
    dsimp only
    rw [List.drop_left]
    simp only [headerOf, totalOf, List.map_map]
    rfl

/-- C1 witness: the example run (client claims price 1, store price is 10)
persists the authoritative price. -/
theorem C1_price_integrity_witness :
    ∃ o, (createOrder exDB [] exReq).state.orders = exDB.orders ++ [o] ∧
      (∀ r ∈ (createOrder exDB [] exReq).state.order_items.drop
          exDB.order_items.length,
        selectPrice exDB r.product_id = some r.price_at_order) ∧
      o.total_price =
        (((createOrder exDB [] exReq).state.order_items.drop
            exDB.order_items.length).map
          (fun r => r.price_at_order * (r.quantity : Rat))).sum :=
  C1_price_integrity exDB [] exReq (by decide)

/-- C3: a successful run inserts exactly one order row and exactly one
order-item row per requested line item, and the order's `total_price` is the
sum over the line items of the authoritative store price times the
quantity. -/
theorem C3_row_counts_and_total (db : DBState) (fails : List Bool)
    (req : OrderRequest)
    (h : (createOrder db fails req).response.status = 201) :
    ∃ items o, req.items = some items ∧
      (createOrder db fails req).state.orders = db.orders ++ [o] ∧
      (createOrder db fails req).state.order_items.length =
        db.order_items.length + items.length ∧
      o.total_price = (items.map (fun it =>
        (selectPrice db (it.product_id.getD 0)).getD 0 *
          ((it.quantity.getD 0 : Int) : Rat))).sum := by
  obtain ⟨items, hitems, hvalid, heq⟩ := createOrder_success_char db fails req h
  refine ⟨items, headerOf db req items, hitems, ?_, ?_, ?_⟩
  · rw [heq]
  · rw [heq]
    simp
  · simp [headerOf, totalOf]

/-- C3 witness: the example run inserts one order row and one item row with
the authoritative total. -/
theorem C3_row_counts_and_total_witness :
    ∃ items o, exReq.items = some items ∧
      (createOrder exDB [] exReq).state.orders = exDB.orders ++ [o] ∧
      (createOrder exDB [] exReq).state.order_items.length =
        exDB.order_items.length + items.length ∧
      o.total_price = (items.map (fun it =>
        (selectPrice exDB (it.product_id.getD 0)).getD 0 *
          ((it.quantity.getD 0 : Int) : Rat))).sum :=
  C3_row_counts_and_total exDB [] exReq (by decide)

/-- C8: on a successful run the trace is exactly: connection, begin, one
price select per line item (in submission order), the single header insert
carrying the generated id, one item insert per line item in submission order
— each row referencing that id — then commit, the 201 response, and the
release. -/
theorem C8_store_operation_order (db : DBState) (fails : List Bool)
    (req : OrderRequest)
    (h : (createOrder db fails req).response.status = 201) :
    ∃ (items : List LineItemRequest) (o : OrderRow)
      (rows : List OrderItemRow), req.items = some items ∧
      o.id = db.nextOrderId ∧
      (createOrder db fails req).trace =
        [Event.getConnection, Event.beginTransaction] ++
          items.map (fun it => Event.selectPrice (it.product_id.getD 0)) ++
          [Event.insertOrder o] ++ rows.map Event.insertOrderItem ++
          [Event.commit, Event.respond 201, Event.release] ∧
      (∀ r ∈ rows, r.order_id = o.id) ∧
      rows.map (fun r => (r.product_id, r.quantity)) =
        items.map (fun it => (it.product_id.getD 0, it.quantity.getD 0)) := by
  obtain ⟨items, hitems, hvalid, heq⟩ := createOrder_success_char db fails req h
  refine ⟨items, headerOf db req items,
    (items.map (reconSpec db)).map (rowOf db.nextOrderId), hitems, rfl,
    ?_, ?_, ?_⟩
  · rw [heq]
    simp only [selEvent, List.map_map]
    rfl
  · intro r hr
    simp only [List.map_map, List.mem_map, Function.comp] at hr
    obtain ⟨it, -, rfl⟩ := hr
    rfl
  · simp only [List.map_map]
    rfl

/-- C8 witness: the example run's trace has exactly this shape. -/
theorem C8_store_operation_order_witness :
    ∃ (items : List LineItemRequest) (o : OrderRow)
      (rows : List OrderItemRow), exReq.items = some items ∧
      o.id = exDB.nextOrderId ∧
      (createOrder exDB [] exReq).trace =
        [Event.getConnection, Event.beginTransaction] ++
          items.map (fun it => Event.selectPrice (it.product_id.getD 0)) ++
          [Event.insertOrder o] ++ rows.map Event.insertOrderItem ++
          [Event.commit, Event.respond 201, Event.release] ∧
      (∀ r ∈ rows, r.order_id = o.id) ∧
      rows.map (fun r => (r.product_id, r.quantity)) =
        items.map (fun it => (it.product_id.getD 0, it.quantity.getD 0)) :=
  C8_store_operation_order exDB [] exReq (by decide)

/-- C10: each persisted order-item's `image_url` is the client value
normalized by `item.image_url || null`: a truthy (non-empty, present) string
passes through, an absent or empty value becomes null. -/
theorem C10_image_url_normalization (db : DBState) (fails : List Bool)
    (req : OrderRequest)
    (h : (createOrder db fails req).response.status = 201) :
    ∃ items, req.items = some items ∧
      ((createOrder db fails req).state.order_items.drop
          db.order_items.length).map (fun r => r.image_url) =
        items.map (fun it => jsOr it.image_url) := by
  obtain ⟨items, hitems, -, heq⟩ := createOrder_success_char db fails req h
  refine ⟨items, hitems, ?_⟩
  rw [heq]
  dsimp only
  rw [List.drop_left]
  simp only [List.map_map]
  rfl

/-- C10 witness: the example run keeps the non-empty `image_url`. -/
theorem C10_image_url_normalization_witness :
    ∃ items, exReq.items = some items ∧
      ((createOrder exDB [] exReq).state.order_items.drop
          exDB.order_items.length).map (fun r => r.image_url) =
        items.map (fun it => jsOr it.image_url) :=
  C10_image_url_normalization exDB [] exReq (by decide)

/-- C4 counterexample: a well-shaped request whose item references the
nonexistent product 999 fails with product-not-found, yet the handler
responds 500, not the 400 the claim requires for that failure. -/
theorem C4_counterexample :
    (createOrder exDB [] exReqMissing).response.message =
      "Gagal membuat pesanan: Produk dengan ID 999 tidak ditemukan." ∧
    (createOrder exDB [] exReqMissing).response.status = 500 ∧
    (createOrder exDB [] exReqMissing).response.status ≠ 400 := by
  refine ⟨by decide, by decide, by decide⟩

/-- C4 as amended: only the three pre-transaction request-shape checks
produce a 400; every error thrown inside the `try` block — in-loop item
validation, product-not-found, and store errors alike — is caught by the
single catch block and produces a 500; in all cases the response carries a
non-empty message and the handler always returns a response. -/
theorem C4_amended_status_policy (db : DBState) (fails : List Bool)
    (req : OrderRequest) :
    (preValidationFailure req = true →
      (createOrder db fails req).response.status = 400) ∧
    (preValidationFailure req = false →
      (createOrder db fails req).response.status = 201 ∨
        (createOrder db fails req).response.status = 500) ∧
    (createOrder db fails req).response.message ≠ "" := by
  rw [createOrder]
  by_cases h1 : itemsMissingOrEmpty req.items = true
  · simp [h1, preValidationFailure, badRequest]
  · simp only [h1, Bool.false_eq_true, if_false]
    by_cases h2 : custFieldInvalid req.customerIdentifier = true
    · simp [h1, h2, preValidationFailure, badRequest]
    · simp only [h2, Bool.false_eq_true, if_false]
      by_cases h3 : custFieldInvalid req.customerName = true
      · simp [h1, h2, h3, preValidationFailure, badRequest]
      · simp only [h3, Bool.false_eq_true, if_false]
        have hpre : preValidationFailure req = false := by
          simp [preValidationFailure, h1, h2, h3]
        by_cases h4 : opFails fails 0 = true
        · simp [h4, hpre, catchMsg_ne_empty]
        · simp only [h4, Bool.false_eq_true, if_false]
          by_cases h5 : opFails fails 1 = true
          · simp [h5, hpre, failResult, catchMsg_ne_empty]
          · simp only [h5, Bool.false_eq_true, if_false]
            rcases hproc : processItems db fails (req.items.getD []) 2 0 []
                [Event.getConnection, Event.beginTransaction] with ⟨tr, res⟩
            cases res with
            | error msg =>
              simp [hpre, failResult, catchMsg_ne_empty]
            | ok v =>
              rcases v with ⟨k, total, recs⟩
              dsimp only
              obtain ⟨hmsg, hstat⟩ := afterRecon_message db fails
                (req.customerIdentifier.getD "") (req.customerName.getD "")
                tr k total recs
              exact ⟨by simp [hpre], fun _ => hstat, hmsg⟩

/-- C4 amended witness: instantiated at the product-not-found run. -/
theorem C4_amended_status_policy_witness :
    (preValidationFailure exReqMissing = true →
      (createOrder exDB [] exReqMissing).response.status = 400) ∧
    (preValidationFailure exReqMissing = false →
      (createOrder exDB [] exReqMissing).response.status = 201 ∨
        (createOrder exDB [] exReqMissing).response.status = 500) ∧
    (createOrder exDB [] exReqMissing).response.message ≠ "" :=
  C4_amended_status_policy exDB [] exReqMissing

/-- C5 counterexample: a request whose second line item is invalid (zero
quantity) is rejected with the in-loop item-validation error, but only after
the connection was acquired, the transaction begun, and the price query for
the first item issued — so the per-line-item checks are not evaluated before
store access. -/
theorem C5_counterexample :
    (createOrder exDB [] exReqBadItem).response.message =
      catchMsg invalidItemMsg ∧
    (createOrder exDB [] exReqBadItem).trace =
      [Event.getConnection, Event.beginTransaction, Event.selectPrice 1,
        Event.rollback, Event.respond 500, Event.release] := by
  refine ⟨by decide, by decide⟩

/-- C5 as amended: only the three request-level checks (items present and
non-empty, customerIdentifier, customerName) run before any store access; the
per-line-item checks run inside the transaction, fail-fast in submission
order, after the connection is acquired and the transaction begun, with the
price lookup of every earlier item already issued and no lookup issued for
the failing item itself (absent store failures). -/
theorem C5_amended_item_checks_inside_transaction (db : DBState)
    (req : OrderRequest) (l1 l2 : List LineItemRequest)
    (bad : LineItemRequest)
    (hitems : req.items = some (l1 ++ bad :: l2))
    (hpre : preValidationFailure req = false)
    (hl1 : ∀ it ∈ l1, itemInvalid it = false ∧
      (selectPrice db (it.product_id.getD 0)).isSome)
    (hbad : itemInvalid bad = true) :
    createOrder db [] req =
      failResult db ([Event.getConnection, Event.beginTransaction] ++
        l1.map selEvent) invalidItemMsg := by
  simp only [preValidationFailure, Bool.or_eq_false_iff] at hpre
  obtain ⟨⟨h1, h2⟩, h3⟩ := hpre
  rw [createOrder, h1, h2, h3]
  have hop0 : opFails [] 0 = false := by decide
  have hop1 : opFails [] 1 = false := by decide
  rw [hop0, hop1]
  simp only [Bool.false_eq_true, if_false]
  obtain ⟨e1, e2⟩ := processItems_invalid_first db l1 bad l2 2 0 []
    [Event.getConnection, Event.beginTransaction] hl1 hbad
  rcases hproc : processItems db [] (req.items.getD []) 2 0 []
      [Event.getConnection, Event.beginTransaction] with ⟨tr, res⟩
  rw [hitems] at hproc
  simp only [Option.getD_some] at hproc
  rw [hproc] at e1 e2
  have hres : res = Except.error invalidItemMsg := congrArg Prod.snd e1
  have htr : tr = [Event.getConnection, Event.beginTransaction] ++
      l1.map selEvent := by simpa using e2
  rw [hres, htr]

/-- C5 amended witness: instantiated at the request whose second item is
invalid. -/
theorem C5_amended_item_checks_inside_transaction_witness :
    createOrder exDB [] exReqBadItem =
      failResult exDB ([Event.getConnection, Event.beginTransaction] ++
        [exItem].map selEvent) invalidItemMsg :=
  C5_amended_item_checks_inside_transaction exDB exReqBadItem [exItem] []
    exItemZeroQty (by decide) (by decide) (by decide) (by decide)

end Wongireng
